import Mathlib

/-!
Verification of the promptum batch runner and retry client.

Shallow embedding of the core of the `promptum` repository: the retry
configuration and backoff policy, the OpenRouter API client's retry loop,
the `TestResult` record, and the bounded-concurrency batch runner.

The `TestResult` record is translated from `src/promptum/benchmark/result.py`.
The runner (`promptum/session/runner.py`), the client
(`promptum/providers/openrouter.py`) and the retry configuration
(`promptum/providers/retry.py`) are not present in the source tree; they are
modelled from the specification, faithful to its words, and that is noted on
each such definition.
-/

namespace Promptum

/-- Retry strategy tag.  Modelled from the spec: `promptum/providers/retry.py`
is absent from the tree; the spec gives the strategy tag set
`{FIXED_DELAY, EXPONENTIAL_BACKOFF}`. -/
inductive RetryStrategy where
  | fixed_delay
  | exponential_backoff
  deriving DecidableEq, Repr

/-- Retry tuning parameters.  Modelled from the spec: `RetryConfig` in
`promptum/providers/retry.py` is absent from the tree; the spec gives
"max attempt count (≥1), strategy tag, initial delay (>0), max delay
(≥ initial delay), exponential base (>1 when strategy is exponential)".
Delays are rationals standing for the source's floats. -/
structure RetryConfig where
  max_attempts : Nat := 3
  strategy : RetryStrategy := .exponential_backoff
  initial_delay : ℚ := 1
  max_delay : ℚ := 60
  exponential_base : ℚ := 2
  deriving DecidableEq, Repr

/-- The validation the spec imposes on a `RetryConfig` at construction. -/
def RetryConfig.Valid (c : RetryConfig) : Prop :=
  1 ≤ c.max_attempts ∧ 0 < c.initial_delay ∧ c.initial_delay ≤ c.max_delay ∧
    (c.strategy = .exponential_backoff → 1 < c.exponential_base)

instance (c : RetryConfig) : Decidable c.Valid := by
  unfold RetryConfig.Valid; infer_instance

/-- Per-request measurement bundle.  Modelled from the spec:
`promptum/providers/metrics.py` is absent from the tree; the spec gives
latency (always present), optional token counts, optional cost, and the
ordered sequence of retry delays actually incurred. -/
structure Metrics where
  latency_ms : ℚ
  prompt_tokens : Option Nat := none
  completion_tokens : Option Nat := none
  total_tokens : Option Nat := none
  cost_usd : Option ℚ := none
  retry_delays : List ℚ := []
  deriving DecidableEq, Repr

/-- Backoff delay computation.  Modelled from the spec:
`OpenRouterClient._calculate_delay` in `promptum/providers/openrouter.py` is
absent from the tree; the spec gives FIXED_DELAY ↦ `initial_delay` and
EXPONENTIAL_BACKOFF ↦ `min(initial_delay * exponential_base^attempt_index,
max_delay)`. -/
def calculate_delay (attempt_index : Nat) (config : RetryConfig) : ℚ :=
  match config.strategy with
  | .fixed_delay => config.initial_delay
  | .exponential_backoff =>
      min (config.initial_delay * config.exponential_base ^ attempt_index)
        config.max_delay

/-! ## ApiClient (`OpenRouterClient.generate`)

Modelled from the spec: `promptum/providers/openrouter.py` is absent from the
tree.  One `generate` call is a sequential loop over physical attempts
`1..=cfg.max_attempts`; each physical attempt's outcome (a transient
network/timeout fault, or an HTTP response with a status code and a parsed
JSON body) is supplied by an oracle `attempts : Nat → AttemptOutcome`, indexed
by the 0-based attempt number.  `generate` also returns the number of network
calls actually made, to state "no network call attempted" claims. -/

/-- Optional usage section of a successful response body. -/
structure Usage where
  prompt_tokens : Option Nat := none
  completion_tokens : Option Nat := none
  total_tokens : Option Nat := none
  total_cost : Option ℚ := none
  deriving DecidableEq, Repr

/-- `message` object inside a `choices` element; `content` may be absent. -/
structure ApiMessage where
  content : Option String := none
  deriving DecidableEq, Repr

/-- One element of the `choices` array. -/
structure Choice where
  message : ApiMessage
  deriving DecidableEq, Repr

/-- Parsed JSON body of an HTTP response:
`{choices: [{message: {content}}], usage?}`. -/
structure ApiBody where
  choices : List Choice := []
  usage : Option Usage := none
  deriving DecidableEq, Repr

/-- Extraction of the result text: `choices[0].message.content`, absent when
`choices` is missing/empty or the first message has no `content`. -/
def ApiBody.parseContent (b : ApiBody) : Option String :=
  match b.choices with
  | [] => none
  | c :: _ => c.message.content

/-- Outcome of one physical attempt: the `post` raised a connection/timeout
class exception, or it returned an HTTP response. -/
inductive AttemptOutcome where
  | transient (msg : String)
  | http (status : Nat) (body : ApiBody)
  deriving DecidableEq, Repr

/-- 2xx success statuses. -/
def isSuccessStatus (s : Nat) : Bool := 200 ≤ s && s < 300

/-- Retryable statuses: 429, or any 5xx. -/
def isRetryableStatus (s : Nat) : Bool := s == 429 || (500 ≤ s && s < 600)

/-- Terminal errors out of `generate`, as classified by the spec's taxonomy. -/
inductive GenError where
  | not_initialized
  | reserved_field (name : String)
  | http_error (status : Nat)
  | invalid_response
  | exhausted (attempts : Nat)
  deriving DecidableEq, Repr

/-- The error message attached to each terminal error, shaped after the
messages the test suite matches on (`"Client not initialized"`,
`"HTTP error 403"`, `"Invalid API response"`, `"failed after 3 attempts"`). -/
def GenError.message : GenError → String
  | .not_initialized => "Client not initialized"
  | .reserved_field n => "Cannot override reserved field: " ++ n
  | .http_error s => "HTTP error " ++ toString s
  | .invalid_response => "Invalid API response"
  | .exhausted n => "API call failed after " ++ toString n ++ " attempts"

/-- Metrics assembled on success: latency is the wall-clock of the whole call
(supplied as `elapsed`), token/cost fields are read from the optional usage
section, the accumulated delay list becomes `retry_delays`. -/
def mkMetrics (elapsed : ℚ) (usage : Option Usage) (delays : List ℚ) : Metrics :=
  { latency_ms := elapsed
    prompt_tokens := usage.bind Usage.prompt_tokens
    completion_tokens := usage.bind Usage.completion_tokens
    total_tokens := usage.bind Usage.total_tokens
    cost_usd := usage.bind Usage.total_cost
    retry_delays := delays }

/-- The retry loop of `generate`.  Modelled from the spec: attempts run
sequentially; a transient fault or retryable status on any attempt except the
last sleeps for `calculate_delay (attempt-1) cfg`, records that delay, and
proceeds; the same fault on the last attempt exhausts the budget; a
non-retryable non-2xx status or an unparsable 2xx body fails immediately.
`i` is the 0-based index of the current attempt, `fuel` the number of
attempts still allowed (initially `cfg.max_attempts`); the second component
of the result counts network calls made. -/
def generateLoop (cfg : RetryConfig) (attempts : Nat → AttemptOutcome)
    (elapsed : ℚ) : Nat → Nat → List ℚ → Except GenError (String × Metrics) × Nat
  | _, 0, _ => (.error (.exhausted cfg.max_attempts), 0)
  | i, fuel + 1, delays =>
    let retry : Except GenError (String × Metrics) × Nat :=
      if fuel = 0 then (.error (.exhausted cfg.max_attempts), 1)
      else
        let d := calculate_delay i cfg
        let r := generateLoop cfg attempts elapsed (i + 1) fuel (delays ++ [d])
        (r.1, r.2 + 1)
    match attempts i with
    | .transient _ => retry
    | .http s body =>
        if isSuccessStatus s then
          match body.parseContent with
          | some text => (.ok (text, mkMetrics elapsed body.usage delays), 1)
          | none => (.error .invalid_response, 1)
        else if isRetryableStatus s then retry
        else (.error (.http_error s), 1)

/-- `OpenRouterClient.generate`.  Modelled from the spec: fails with a
configuration error before any network call when the client has not been
acquired (`initialized = false`) or when a caller-supplied extra parameter key
collides with a reserved field (`model`, `messages`); otherwise runs the retry
loop under the per-call config when supplied, else the client default.
`extra_params` carries the keys of the caller-supplied extra parameters.
Returns the outcome paired with the number of network calls made. -/
def generate (initialized : Bool) (default_retry_config : RetryConfig)
    (extra_params : List String) (retry_config : Option RetryConfig)
    (attempts : Nat → AttemptOutcome) (elapsed : ℚ) :
    Except GenError (String × Metrics) × Nat :=
  if !initialized then (.error .not_initialized, 0)
  else
    match extra_params.find? (fun k => k == "model" || k == "messages") with
    | some k => (.error (.reserved_field k), 0)
    | none =>
        let cfg := retry_config.getD default_retry_config
        generateLoop cfg attempts elapsed 0 cfg.max_attempts []

/-- Whether an attempt outcome takes the retryable path: a transient
network/timeout fault, or an HTTP response with status 429 or any 5xx. -/
def AttemptOutcome.retryable : AttemptOutcome → Bool
  | .transient _ => true
  | .http s _ => isRetryableStatus s

/-! ## TestResult (from `src/promptum/benchmark/result.py`) and the runner -/

/-- Time zone marker carried by a datetime's `tzinfo`. -/
inductive Timezone where
  | utc
  deriving DecidableEq, Repr

/-- A creation timestamp: only the `tzinfo` attribute matters to the claims.
`tzinfo = none` is a naive datetime. -/
structure Datetime where
  tzinfo : Option Timezone := none
  deriving DecidableEq, Repr

/-- `datetime.now()` with no argument: a naive local timestamp
(`tzinfo` is `None`). -/
def datetimeNow : Datetime := { tzinfo := none }

/-- `datetime.now(UTC)`: an aware timestamp whose `tzinfo` is UTC. -/
def datetimeNowUTC : Datetime := { tzinfo := some .utc }

/-- Validator verdict details mapping (`dict[str, Any]` in the source). -/
abbrev ValidationDetails := List (String × Bool)

/-- A test case.  Modelled from the spec: `Prompt` in
`promptum/session/case.py` is absent from the tree; the spec gives name,
prompt text, target model, optional system prompt, optional sampling
parameters, an attached validator capability (`validate(text) ->
(passed, details)`), and an optional per-case retry configuration. -/
structure Prompt where
  name : String
  prompt : String
  model : String
  validator : String → Bool × ValidationDetails
  system_prompt : Option String := none
  temperature : Option ℚ := none
  max_tokens : Option Nat := none
  retry_config : Option RetryConfig := none

/-- `TestResult` from `src/promptum/benchmark/result.py`: a frozen dataclass
with fields `test_case`, `response`, `passed`, `metrics`,
`validation_details`, `execution_error = None` by default, and
`timestamp = datetime.now()` by default (`field(default_factory=datetime.now)`
— a naive, not UTC-aware, default). -/
structure TestResult where
  test_case : Prompt
  response : Option String
  passed : Bool
  metrics : Option Metrics
  validation_details : ValidationDetails
  execution_error : Option String := none
  timestamp : Datetime := datetimeNow

/-- Per-case execution inside the runner.  Modelled from the spec:
`Runner` in `promptum/session/runner.py` is absent from the tree.
`gen` is the provider-call oracle: the error message the call path raised, or
the `(text, metrics)` pair `generate` returned.  On success the case's
validator populates `passed`/`validation_details`; on any raised error the
case yields `passed = False`, `response = None`, `metrics = None`,
`execution_error` set to the error's message.  The runner stamps each result
with an aware UTC creation timestamp. -/
def runCase (gen : Prompt → Except String (String × Metrics)) (p : Prompt) :
    TestResult :=
  match gen p with
  | .ok (text, m) =>
      let v := p.validator text
      { test_case := p, response := some text, passed := v.1, metrics := some m
        validation_details := v.2, execution_error := none
        timestamp := datetimeNowUTC }
  | .error e =>
      { test_case := p, response := none, passed := false, metrics := none
        validation_details := [], execution_error := some e
        timestamp := datetimeNowUTC }

/-- What one `Runner.run` call produced: the result sequence (index-aligned
with the input), the number of provider calls made, and the sequence of
progress-callback invocations `(completed, total, result)`. -/
structure RunOutput where
  results : List TestResult
  provider_calls : Nat
  callbacks : List (Nat × Nat × TestResult)

/-- `Runner.run`.  Modelled from the spec: `promptum/session/runner.py` is
absent from the tree.  Results are aggregated in input order regardless of
completion order; each case makes one provider call; after each case
completes the progress callback receives `(completedCountSoFar, totalCount,
thatCase'sResult)` — completion order across cases is unconstrained, so the
model records the input-order determinization of the callback sequence. -/
def Runner.run (gen : Prompt → Except String (String × Metrics))
    (cases : List Prompt) : RunOutput :=
  let results := cases.map (runCase gen)
  { results := results
    provider_calls := cases.length
    callbacks := results.enum.map (fun e => (e.1 + 1, cases.length, e.2)) }

/-! ## The concurrency limiter

Modelled from the spec: the runner (absent from the tree) guards case
execution with a counting limiter that lets at most `max_concurrent` cases
into active execution at once.  The scheduler is a transition system over
counts of waiting / active / finished cases: a case may start only while
fewer than `k` are active, and a finished case releases its slot. -/

/-- Scheduler state: how many cases are waiting to start, actively
executing, and finished. -/
structure SchedState where
  waiting : Nat
  active : Nat
  finished : Nat
  deriving DecidableEq, Repr

/-- One scheduler transition under concurrency cap `k`: a waiting case may start
only when a slot is free (`active < k`), or complete an active case,
releasing its slot. -/
inductive SchedStep (k : Nat) : SchedState → SchedState → Prop where
  | acquire (w a f : Nat) (hs : a < k) :
      SchedStep k ⟨w + 1, a, f⟩ ⟨w, a + 1, f⟩
  | complete (w a f : Nat) :
      SchedStep k ⟨w, a + 1, f⟩ ⟨w, a, f + 1⟩

/-- States reachable from `s` by scheduler transitions. -/
inductive SchedReachable (k : Nat) (s : SchedState) : SchedState → Prop where
  | refl : SchedReachable k s s
  | step {t u : SchedState} : SchedReachable k s t → SchedStep k t u →
      SchedReachable k s u

/-- The initial scheduler state for a batch of `n` cases. -/
def schedInit (n : Nat) : SchedState := ⟨n, 0, 0⟩

/-! ## Concrete sample data

Mirrors the fixtures the test suite drives the code with; used to evaluate
the theorems at concrete inputs. -/

/-- A validated retry configuration with three attempts (the
`retry_config_3_attempts` fixture, with unit-sized delays). -/
def sampleConfig : RetryConfig :=
  { max_attempts := 3, strategy := .exponential_backoff, initial_delay := 1,
    max_delay := 60, exponential_base := 2 }

/-- The `successful_api_response` fixture body. -/
def helloBody : ApiBody :=
  { choices := [{ message := { content := some "Hello, world!" } }]
    usage := some { prompt_tokens := some 10, completion_tokens := some 20,
                    total_tokens := some 30, total_cost := none } }

/-- Attempt oracle: 429 on the first two attempts, success on the third. -/
def retryThenOkAttempts : Nat → AttemptOutcome := fun i =>
  if i < 2 then .http 429 {} else .http 200 helloBody

/-- Attempt oracle: a retryable 429 on the first attempt, then a
non-retryable 403 on the second. -/
def thenForbiddenAttempts : Nat → AttemptOutcome := fun i =>
  if i = 0 then .http 429 {} else .http 403 {}

/-- A validator that always passes (the `passing_validator` fixture). -/
def passingValidator : String → Bool × ValidationDetails :=
  fun _ => (true, [("matched", true)])

/-- The `sample_prompt` fixture. -/
def samplePrompt : Prompt :=
  { name := "test-prompt", prompt := "What is 2+2?", model := "test-model",
    validator := passingValidator }

/-- A second prompt whose provider call raises. -/
def boomPrompt : Prompt :=
  { name := "boom", prompt := "What is 2+2?", model := "test-model",
    validator := passingValidator }

/-- Provider oracle: raises `"API down"` for `boomPrompt`, succeeds with the
mocked response otherwise. -/
def sampleGen : Prompt → Except String (String × Metrics) := fun p =>
  if p.name = "boom" then .error "API down"
  else .ok ("test response", { latency_ms := 100 })

/-- A `TestResult` built relying on the source dataclass defaults for
`execution_error` and `timestamp` (the `field(default_factory=datetime.now)`
path of `result.py`). -/
def defaultTimestampedResult : TestResult :=
  { test_case := samplePrompt, response := some "test response",
    passed := true, metrics := none, validation_details := [("matched", true)] }

/-! ## Helper lemmas -/

lemma isRetryable_not_success {s : Nat} (h : isRetryableStatus s = true) :
    isSuccessStatus s = false := by
  by_contra hc
  have h2 : isSuccessStatus s = true := by
    revert hc
    cases isSuccessStatus s <;> simp
  simp only [isRetryableStatus, Bool.or_eq_true, beq_iff_eq, Bool.and_eq_true,
    decide_eq_true_eq] at h
  simp only [isSuccessStatus, Bool.and_eq_true, decide_eq_true_eq] at h2
  omega

lemma calculate_delay_pos (cfg : RetryConfig) (hv : cfg.Valid) (n : Nat) :
    0 < calculate_delay n cfg := by
  obtain ⟨_, h2, h3, h4⟩ := hv
  cases hs : cfg.strategy with
  | fixed_delay => simpa [calculate_delay, hs] using h2
  | exponential_backoff =>
      have hb : (0 : ℚ) < cfg.exponential_base :=
        lt_trans one_pos (h4 hs)
      have hpow : (0 : ℚ) < cfg.exponential_base ^ n := pow_pos hb n
      simp only [calculate_delay, hs]
      exact lt_min (mul_pos h2 hpow) (lt_of_lt_of_le h2 h3)

lemma generateLoop_ok_after_retryables (cfg : RetryConfig)
    (attempts : Nat → AttemptOutcome) (elapsed : ℚ) (s : Nat) (body : ApiBody)
    (text : String) (hs : isSuccessStatus s = true)
    (hp : body.parseContent = some text) :
    ∀ (j i fuel : Nat) (delays : List ℚ), j < fuel →
      (∀ t, t < j → (attempts (i + t)).retryable = true) →
      attempts (i + j) = .http s body →
      ∃ ds : List ℚ,
        generateLoop cfg attempts elapsed i fuel delays =
          (.ok (text, mkMetrics elapsed body.usage (delays ++ ds)), j + 1) ∧
        ds.length = j ∧ (cfg.Valid → ∀ d ∈ ds, 0 < d) := by
  intro j
  induction j with
  | zero =>
      intro i fuel delays hj _ hatt
      obtain ⟨f, rfl⟩ : ∃ f, fuel = f + 1 := ⟨fuel - 1, by omega⟩
      refine ⟨[], ?_, rfl, fun _ _ h => absurd h (List.not_mem_nil _)⟩
      rw [Nat.add_zero] at hatt
      simp [generateLoop, hatt, hs, hp]
  | succ j ih =>
      intro i fuel delays hj hpre hatt
      obtain ⟨f, rfl⟩ : ∃ f, fuel = f + 1 := ⟨fuel - 1, by omega⟩
      have hf : ¬(f = 0) := by omega
      have h0 : (attempts i).retryable = true := by
        have := hpre 0 (Nat.succ_pos j)
        simpa using this
      have hshift : ∀ t, t < j → (attempts (i + 1 + t)).retryable = true := by
        intro t ht
        have h := hpre (t + 1) (by omega)
        have he : i + (t + 1) = i + 1 + t := by omega
        rwa [he] at h
      have hatt2 : attempts (i + 1 + j) = .http s body := by
        have he : i + (j + 1) = i + 1 + j := by omega
        rwa [he] at hatt
      obtain ⟨ds, hloop, hlen, hpos⟩ :=
        ih (i + 1) f (delays ++ [calculate_delay i cfg]) (by omega) hshift hatt2
      refine ⟨calculate_delay i cfg :: ds, ?_, by simp [hlen], ?_⟩
      · cases hA : attempts i with
        | transient msg =>
            simp only [generateLoop, hA, hf, if_false, ite_false]
            rw [hloop]
            simp
        | http s2 body2 =>
            have hr : isRetryableStatus s2 = true := by
              simpa [AttemptOutcome.retryable, hA] using h0
            have hns : isSuccessStatus s2 = false := isRetryable_not_success hr
            simp only [generateLoop, hA, hns, hr, hf, if_false, ite_false,
              Bool.false_eq_true, if_true, ite_true]
            rw [hloop]
            simp
      · intro hv d hd
        rcases List.mem_cons.mp hd with rfl | hd2
        · exact calculate_delay_pos cfg hv i
        · exact hpos hv d hd2

lemma generateLoop_exhausted (cfg : RetryConfig)
    (attempts : Nat → AttemptOutcome) (elapsed : ℚ) :
    ∀ (fuel i : Nat) (delays : List ℚ), 1 ≤ fuel →
      (∀ t, t < fuel → (attempts (i + t)).retryable = true) →
      (generateLoop cfg attempts elapsed i fuel delays).1 =
        .error (.exhausted cfg.max_attempts) := by
  intro fuel
  induction fuel with
  | zero => intro i delays h; omega
  | succ f ih =>
      intro i delays _ hall
      have h0 : (attempts i).retryable = true := by
        have := hall 0 (Nat.succ_pos f)
        simpa using this
      have hshift : ∀ t, t < f → (attempts (i + 1 + t)).retryable = true := by
        intro t ht
        have h := hall (t + 1) (by omega)
        have he : i + (t + 1) = i + 1 + t := by omega
        rwa [he] at h
      cases hA : attempts i with
      | transient msg =>
          by_cases hf : f = 0
          · subst hf
            simp [generateLoop, hA]
          · have := ih (i + 1) (delays ++ [calculate_delay i cfg])
              (by omega) hshift
            simp only [generateLoop, hA, hf, if_false, ite_false]
            simpa using this
      | http s2 body2 =>
          have hr : isRetryableStatus s2 = true := by
            simpa [AttemptOutcome.retryable, hA] using h0
          have hns : isSuccessStatus s2 = false := isRetryable_not_success hr
          by_cases hf : f = 0
          · subst hf
            simp [generateLoop, hA, hns, hr]
          · have := ih (i + 1) (delays ++ [calculate_delay i cfg])
              (by omega) hshift
            simp only [generateLoop, hA, hns, hr, hf, if_false, ite_false,
              Bool.false_eq_true, if_true, ite_true]
            simpa using this

lemma generateLoop_error_cases (cfg : RetryConfig)
    (attempts : Nat → AttemptOutcome) (elapsed : ℚ) :
    ∀ (fuel i : Nat) (delays : List ℚ) (er : GenError),
      (generateLoop cfg attempts elapsed i fuel delays).1 = .error er →
      er = .exhausted cfg.max_attempts ∨ er = .invalid_response ∨
        ∃ s, er = .http_error s := by
  intro fuel
  induction fuel with
  | zero =>
      intro i delays er h
      simp only [generateLoop, Except.error.injEq] at h
      exact Or.inl h.symm
  | succ f ih =>
      intro i delays er h
      cases hA : attempts i with
      | transient msg =>
          rw [generateLoop] at h
          simp only [hA] at h
          by_cases hf : f = 0
          · subst hf
            simp only [if_true, ite_true] at h
            cases h
            exact Or.inl rfl
          · simp only [hf, if_false, ite_false] at h
            exact ih (i + 1) _ er h
      | http s2 body2 =>
          rw [generateLoop] at h
          simp only [hA] at h
          by_cases hsus : isSuccessStatus s2 = true
          · simp only [hsus, if_true, ite_true] at h
            cases hpc : body2.parseContent with
            | some t => simp [hpc] at h
            | none =>
                simp only [hpc] at h
                cases h
                exact Or.inr (Or.inl rfl)
          · have hsus2 : isSuccessStatus s2 = false := by
              simpa using hsus
            by_cases hry : isRetryableStatus s2 = true
            · simp only [hsus2, hry, Bool.false_eq_true, if_false, ite_false,
                if_true, ite_true] at h
              by_cases hf : f = 0
              · subst hf
                simp only [if_true, ite_true] at h
                cases h
                exact Or.inl rfl
              · simp only [hf, if_false, ite_false] at h
                exact ih (i + 1) _ er h
            · have hry2 : isRetryableStatus s2 = false := by simpa using hry
              simp only [hsus2, hry2, Bool.false_eq_true, if_false,
                ite_false] at h
              cases h
              exact Or.inr (Or.inr ⟨s2, rfl⟩)

lemma generateLoop_skip_retryables (cfg : RetryConfig)
    (attempts : Nat → AttemptOutcome) (elapsed : ℚ) :
    ∀ (j i fuel : Nat) (delays : List ℚ), j < fuel →
      (∀ t, t < j → (attempts (i + t)).retryable = true) →
      ∃ ds : List ℚ, ds.length = j ∧
        generateLoop cfg attempts elapsed i fuel delays =
          ((generateLoop cfg attempts elapsed (i + j) (fuel - j)
              (delays ++ ds)).1,
            (generateLoop cfg attempts elapsed (i + j) (fuel - j)
              (delays ++ ds)).2 + j) := by
  intro j
  induction j with
  | zero =>
      intro i fuel delays _ _
      exact ⟨[], rfl, by simp⟩
  | succ j ih =>
      intro i fuel delays hj hpre
      obtain ⟨f, rfl⟩ : ∃ f, fuel = f + 1 := ⟨fuel - 1, by omega⟩
      have hf : ¬(f = 0) := by omega
      have h0 : (attempts i).retryable = true := by
        have := hpre 0 (Nat.succ_pos j)
        simpa using this
      have hshift : ∀ t, t < j → (attempts (i + 1 + t)).retryable = true := by
        intro t ht
        have h := hpre (t + 1) (by omega)
        have he : i + (t + 1) = i + 1 + t := by omega
        rwa [he] at h
      obtain ⟨ds, hlen, hloop⟩ :=
        ih (i + 1) f (delays ++ [calculate_delay i cfg]) (by omega) hshift
      have he1 : i + 1 + j = i + (j + 1) := by omega
      have he2 : f - j = f + 1 - (j + 1) := by omega
      rw [he1, he2, List.append_assoc, List.singleton_append] at hloop
      refine ⟨calculate_delay i cfg :: ds, by simp [hlen], ?_⟩
      cases hA : attempts i with
      | transient msg =>
          simp only [generateLoop, hA, hf, if_false, ite_false]
          rw [hloop]
          simp [Nat.add_assoc]
      | http s2 body2 =>
          have hr : isRetryableStatus s2 = true := by
            simpa [AttemptOutcome.retryable, hA] using h0
          have hns : isSuccessStatus s2 = false := isRetryable_not_success hr
          simp only [generateLoop, hA, hns, hr, hf, if_false, ite_false,
            Bool.false_eq_true, if_true, ite_true]
          rw [hloop]
          simp [Nat.add_assoc]

lemma generate_eq_loop (cfg : RetryConfig) (attempts : Nat → AttemptOutcome)
    (elapsed : ℚ) :
    generate true cfg [] none attempts elapsed =
      generateLoop cfg attempts elapsed 0 cfg.max_attempts [] := rfl

lemma runCase_test_case (gen : Prompt → Except String (String × Metrics))
    (p : Prompt) : (runCase gen p).test_case = p := by
  unfold runCase
  cases gen p with
  | ok v => rfl
  | error e => rfl

lemma runCase_timestamp (gen : Prompt → Except String (String × Metrics))
    (p : Prompt) : (runCase gen p).timestamp = datetimeNowUTC := by
  unfold runCase
  cases gen p with
  | ok v => rfl
  | error e => rfl

lemma mem_enumFrom_bounds {α : Type} :
    ∀ (l : List α) (n : Nat) (p : Nat × α), p ∈ l.enumFrom n →
      n ≤ p.1 ∧ p.1 < n + l.length := by
  intro l
  induction l with
  | nil => intro n p hp; simp [List.enumFrom] at hp
  | cons a t ih =>
      intro n p hp
      simp only [List.enumFrom, List.mem_cons] at hp
      rcases hp with rfl | hp
      · simp
      · have := ih (n + 1) p hp
        simp only [List.length_cons]
        omega

/-! ## Claim theorems -/

/-- C5: for every attempt index `n` and validated configuration,
`calculate_delay` returns `initial_delay` under FIXED_DELAY and
`min (initial_delay * exponential_base ^ n) max_delay` under
EXPONENTIAL_BACKOFF; consequently the first backoff `calculate_delay 0`
equals `initial_delay` under both strategies. -/
theorem C5_calculate_delay_formula (n : Nat) (cfg : RetryConfig)
    (hv : cfg.Valid) :
    (cfg.strategy = .fixed_delay →
      calculate_delay n cfg = cfg.initial_delay) ∧
    (cfg.strategy = .exponential_backoff →
      calculate_delay n cfg =
        min (cfg.initial_delay * cfg.exponential_base ^ n) cfg.max_delay) ∧
    calculate_delay 0 cfg = cfg.initial_delay := by
  obtain ⟨_, _, h3, _⟩ := hv
  refine ⟨fun h => by simp [calculate_delay, h],
    fun h => by simp [calculate_delay, h], ?_⟩
  cases hs : cfg.strategy with
  | fixed_delay => simp [calculate_delay, hs]
  | exponential_backoff =>
      simp only [calculate_delay, hs, pow_zero, mul_one]
      exact min_eq_left h3

/-- Witness for C5: the concrete exponential configuration of the test
fixtures, evaluated at attempt index 0. -/
theorem C5_calculate_delay_formula_witness :
    sampleConfig.Valid ∧ calculate_delay 0 sampleConfig = 1 :=
  ⟨by decide, by
    have h := (C5_calculate_delay_formula 0 sampleConfig (by decide)).2.2
    simpa [sampleConfig] using h⟩

/-- C4: under a validated retry configuration with `max_attempts = m`:
retryable outcomes (transient faults, 429, 5xx) on every attempt before a
succeeding attempt `j < m` leave `generate` returning the successful content
with `retry_delays` of length `j`, all values positive; and when all `m`
attempts fail via the retryable path, `generate` fails with the terminal
exhaustion error whose message states the number of attempts made. -/
theorem C4_retry_behavior (cfg : RetryConfig)
    (attempts : Nat → AttemptOutcome) (elapsed : ℚ) (hv : cfg.Valid) :
    (∀ (j s : Nat) (body : ApiBody) (text : String),
      j < cfg.max_attempts →
      (∀ t, t < j → (attempts t).retryable = true) →
      attempts j = .http s body →
      isSuccessStatus s = true →
      body.parseContent = some text →
      ∃ m : Metrics,
        (generate true cfg [] none attempts elapsed).1 = .ok (text, m) ∧
        m.retry_delays.length = j ∧ ∀ d ∈ m.retry_delays, 0 < d) ∧
    ((∀ t, t < cfg.max_attempts → (attempts t).retryable = true) →
      (generate true cfg [] none attempts elapsed).1 =
        .error (.exhausted cfg.max_attempts) ∧
      (GenError.exhausted cfg.max_attempts).message =
        "API call failed after " ++ toString cfg.max_attempts ++
          " attempts") := by
  constructor
  · intro j s body text hj hpre hatt hs hp
    obtain ⟨ds, hloop, hlen, hpos⟩ :=
      generateLoop_ok_after_retryables cfg attempts elapsed s body text hs
        hp j 0 cfg.max_attempts [] hj (by simpa using hpre)
        (by simpa using hatt)
    refine ⟨mkMetrics elapsed body.usage ds, ?_, ?_, hpos hv⟩
    · rw [generate_eq_loop, hloop]
      simp
    · simp [mkMetrics, hlen]
  · intro hall
    refine ⟨?_, rfl⟩
    rw [generate_eq_loop]
    exact generateLoop_exhausted cfg attempts elapsed cfg.max_attempts 0 []
      hv.1 (by simpa using hall)

/-- Witness for C4: two 429 responses then a 200, under the three-attempt
configuration — the content comes back with two positive recorded delays. -/
theorem C4_retry_behavior_witness :
    ∃ m : Metrics,
      (generate true sampleConfig [] none retryThenOkAttempts 5).1 =
        .ok ("Hello, world!", m) ∧
      m.retry_delays.length = 2 ∧ ∀ d ∈ m.retry_delays, 0 < d :=
  (C4_retry_behavior sampleConfig retryThenOkAttempts 5 (by decide)).1
    2 200 helloBody "Hello, world!" (by decide) (by decide) rfl rfl rfl

/-- C6: during a `generate` call under a validated configuration, a
non-retryable 4xx status (other than 429) arriving on any attempt `j` of the
loop (after `j` retryable outcomes) makes the call fail immediately with the
terminal HTTP error carrying the status code, after exactly `j + 1` network
calls; likewise a 2xx response on any attempt `j` whose body lacks the
expected text field (missing `choices`, empty `choices`, or a first message
without `content`) fails immediately with the terminal invalid-response
error after exactly `j + 1` network calls — in neither case is a further
attempt made, whatever the later attempt outcomes are. -/
theorem C6_terminal_classification (cfg : RetryConfig)
    (attempts : Nat → AttemptOutcome) (elapsed : ℚ)
    (j : Nat) (hj : j < cfg.max_attempts)
    (hpre : ∀ t, t < j → (attempts t).retryable = true) :
    (∀ (s : Nat) (body : ApiBody), attempts j = .http s body →
      400 ≤ s → s < 500 → s ≠ 429 →
      (generate true cfg [] none attempts elapsed).1 =
        .error (.http_error s) ∧
      (generate true cfg [] none attempts elapsed).2 = j + 1) ∧
    (∀ (s : Nat) (body : ApiBody), attempts j = .http s body →
      isSuccessStatus s = true → body.parseContent = none →
      (generate true cfg [] none attempts elapsed).1 =
        .error .invalid_response ∧
      (generate true cfg [] none attempts elapsed).2 = j + 1) := by
  obtain ⟨ds, _, hskip⟩ :=
    generateLoop_skip_retryables cfg attempts elapsed j 0 cfg.max_attempts []
      hj (by simpa using hpre)
  rw [Nat.zero_add, List.nil_append] at hskip
  obtain ⟨f, hm⟩ : ∃ f, cfg.max_attempts - j = f + 1 :=
    ⟨cfg.max_attempts - j - 1, by omega⟩
  constructor
  · intro s body hatt h4 h5 h429
    have hns : isSuccessStatus s = false := by
      simp only [isSuccessStatus, Bool.and_eq_false_iff, decide_eq_false_iff_not]
      omega
    have hnr : isRetryableStatus s = false := by
      simp only [isRetryableStatus, Bool.or_eq_false_iff, beq_eq_false_iff_ne,
        ne_eq, Bool.and_eq_false_iff, decide_eq_false_iff_not]
      omega
    have hstep : generateLoop cfg attempts elapsed j (cfg.max_attempts - j) ds =
        (.error (.http_error s), 1) := by
      rw [hm]
      simp [generateLoop, hatt, hns, hnr]
    rw [generate_eq_loop, hskip, hstep]
    exact ⟨rfl, by omega⟩
  · intro s body hatt hs hp
    have hstep : generateLoop cfg attempts elapsed j (cfg.max_attempts - j) ds =
        (.error .invalid_response, 1) := by
      rw [hm]
      simp [generateLoop, hatt, hs, hp]
    rw [generate_eq_loop, hskip, hstep]
    exact ⟨rfl, by omega⟩

/-- Witness for C6: a 429 on the first attempt followed by a 403 on the
second fails terminally with the status carried, after exactly two network
calls. -/
theorem C6_terminal_classification_witness :
    (generate true sampleConfig [] none thenForbiddenAttempts 5).1 =
        .error (.http_error 403) ∧
      (generate true sampleConfig [] none thenForbiddenAttempts 5).2 = 2 :=
  (C6_terminal_classification sampleConfig thenForbiddenAttempts 5
      1 (by decide) (by decide)).1 403 {} rfl (by decide) (by decide)
    (by decide)

/-- C7: `generate` fails with a configuration error before any network call
(zero calls made) exactly when the client has not been acquired or a
caller-supplied extra parameter collides with the reserved fields `model` or
`messages`; under acquisition with no reserved-key collision, no
configuration error can come out of `generate`. -/
theorem C7_configuration_errors (cfg : RetryConfig) (extra : List String)
    (rc : Option RetryConfig) (attempts : Nat → AttemptOutcome)
    (elapsed : ℚ) :
    generate false cfg extra rc attempts elapsed =
      (.error .not_initialized, 0) ∧
    (∀ k, k ∈ extra → k = "model" ∨ k = "messages" →
      ∃ kr, (kr = "model" ∨ kr = "messages") ∧
        generate true cfg extra rc attempts elapsed =
          (.error (.reserved_field kr), 0)) ∧
    ((∀ k, k ∈ extra → k ≠ "model" ∧ k ≠ "messages") →
      ∀ er, (generate true cfg extra rc attempts elapsed).1 = .error er →
        er ≠ .not_initialized ∧ ∀ n, er ≠ .reserved_field n) := by
  refine ⟨rfl, ?_, ?_⟩
  · intro k hk hres
    have hp : (fun k => k == "model" || k == "messages") k = true := by
      rcases hres with rfl | rfl <;> simp
    have hsome :
        (extra.find? (fun k => k == "model" || k == "messages")).isSome := by
      rw [List.find?_isSome]
      exact ⟨k, hk, hp⟩
    obtain ⟨kr, hkr⟩ := Option.isSome_iff_exists.mp hsome
    have hpkr := List.find?_some hkr
    refine ⟨kr, by simpa using hpkr, ?_⟩
    simp [generate, hkr]
  · intro hnone er her
    have hfind :
        extra.find? (fun k => k == "model" || k == "messages") = none := by
      rw [List.find?_eq_none]
      intro x hx
      have hx2 := hnone x hx
      simp [hx2.1, hx2.2]
    rw [show generate true cfg extra rc attempts elapsed =
        generateLoop (rc.getD cfg) attempts elapsed 0
          (rc.getD cfg).max_attempts [] from by simp [generate, hfind]] at her
    rcases generateLoop_error_cases (rc.getD cfg) attempts elapsed
        (rc.getD cfg).max_attempts 0 [] er her with h | h | ⟨s2, h⟩ <;>
      subst h <;> exact ⟨by simp, fun n => by simp⟩

/-- Witness for C7: a caller-supplied `messages` key is rejected with the
reserved-field configuration error and zero network calls. -/
theorem C7_configuration_errors_witness :
    ∃ kr, (kr = "model" ∨ kr = "messages") ∧
      generate true sampleConfig ["messages"] none retryThenOkAttempts 5 =
        (.error (.reserved_field kr), 0) :=
  (C7_configuration_errors sampleConfig ["messages"] none retryThenOkAttempts
      5).2.1 "messages" (by simp) (Or.inr rfl)

/-- C1: `Runner.run` returns one result per input case, index-aligned with
the input sequence (the i-th result references the i-th case), and the empty
batch returns an empty sequence with zero provider calls and zero callback
invocations. -/
theorem C1_run_shape (gen : Prompt → Except String (String × Metrics))
    (cases : List Prompt) :
    (Runner.run gen cases).results.length = cases.length ∧
    (∀ i : Nat, ((Runner.run gen cases).results[i]?).map
        TestResult.test_case = cases[i]?) ∧
    Runner.run gen [] = ⟨[], 0, []⟩ := by
  refine ⟨by simp [Runner.run], ?_, rfl⟩
  intro i
  simp only [Runner.run, List.getElem?_map]
  cases h : cases[i]? with
  | none => rfl
  | some p => simp [runCase_test_case]

/-- C2: a case whose provider call raises yields, at its own input position,
a result with `passed = false`, no response, no metrics, and
`execution_error` set to the raised message; every sibling case whose call
succeeds still completes normally, and the batch still returns a
full-length sequence (no propagation to the caller). -/
theorem C2_error_isolation (gen : Prompt → Except String (String × Metrics))
    (cases : List Prompt) (i : Nat) (msg : String) (hi : i < cases.length)
    (herr : gen (cases.get ⟨i, hi⟩) = .error msg) :
    (∃ r, (Runner.run gen cases).results[i]? = some r ∧
      r.passed = false ∧ r.response = none ∧ r.metrics = none ∧
      r.execution_error = some msg) ∧
    (∀ j (hj : j < cases.length), j ≠ i →
      ∀ text m, gen (cases.get ⟨j, hj⟩) = .ok (text, m) →
      ∃ rj, (Runner.run gen cases).results[j]? = some rj ∧
        rj.execution_error = none ∧ rj.response = some text ∧
        rj.metrics = some m) ∧
    (Runner.run gen cases).results.length = cases.length := by
  simp only [List.get_eq_getElem] at herr
  refine ⟨?_, ?_, by simp [Runner.run]⟩
  · refine ⟨runCase gen (cases.get ⟨i, hi⟩), ?_, ?_, ?_, ?_, ?_⟩
    · simp [Runner.run, List.getElem?_map, List.getElem?_eq_getElem hi]
    all_goals simp [runCase, herr]
  · intro j hj hne text m hok
    simp only [List.get_eq_getElem] at hok
    refine ⟨runCase gen (cases.get ⟨j, hj⟩), ?_, ?_, ?_, ?_⟩
    · simp [Runner.run, List.getElem?_map, List.getElem?_eq_getElem hj]
    all_goals simp [runCase, hok]

/-- Witness for C2: a two-case batch where the second case's provider call
raises `"API down"` — the second result is the error result, the first
completes normally. -/
theorem C2_error_isolation_witness :
    (∃ r, (Runner.run sampleGen [samplePrompt, boomPrompt]).results[1]? =
        some r ∧ r.passed = false ∧ r.response = none ∧ r.metrics = none ∧
        r.execution_error = some "API down") ∧
    (∀ j (hj : j < ([samplePrompt, boomPrompt] : List Prompt).length),
      j ≠ 1 → ∀ text m,
      sampleGen (([samplePrompt, boomPrompt] : List Prompt).get ⟨j, hj⟩) =
        .ok (text, m) →
      ∃ rj, (Runner.run sampleGen [samplePrompt, boomPrompt]).results[j]? =
        some rj ∧ rj.execution_error = none ∧ rj.response = some text ∧
        rj.metrics = some m) ∧
    (Runner.run sampleGen [samplePrompt, boomPrompt]).results.length =
      ([samplePrompt, boomPrompt] : List Prompt).length :=
  C2_error_isolation sampleGen [samplePrompt, boomPrompt] 1 "API down"
    (by decide) rfl

/-- C3: under concurrency cap `k`, every scheduler state reachable from the
initial batch state has at most `k` cases simultaneously in active
execution. -/
theorem C3_concurrency_bound (k n : Nat) (s : SchedState)
    (h : SchedReachable k (schedInit n) s) : s.active ≤ k := by
  induction h with
  | refl => simp [schedInit]
  | step hr hs ih =>
      cases hs with
      | acquire w a f hlt => simpa using hlt
      | complete w a f =>
          simp only at ih ⊢
          omega

/-- Witness for C3: with cap 3 and a batch of 10, the state after starting
one case is reachable and has at most 3 active cases. -/
theorem C3_concurrency_bound_witness :
    SchedReachable 3 (schedInit 10) ⟨9, 1, 0⟩ ∧
      (SchedState.mk 9 1 0).active ≤ 3 := by
  have hreach : SchedReachable 3 (schedInit 10) ⟨9, 1, 0⟩ :=
    SchedReachable.step SchedReachable.refl (SchedStep.acquire 9 0 0 (by decide))
  exact ⟨hreach, C3_concurrency_bound 3 10 ⟨9, 1, 0⟩ hreach⟩

/-- C8: every result a run produces satisfies exactly one of
{response present and execution_error absent},
{response absent and execution_error present}; and whenever
execution_error is present, passed is false. -/
theorem C8_result_invariant (gen : Prompt → Except String (String × Metrics))
    (cases : List Prompt) (r : TestResult)
    (hr : r ∈ (Runner.run gen cases).results) :
    ((r.response.isSome = true ∧ r.execution_error = none) ∨
      (r.response = none ∧ r.execution_error.isSome = true)) ∧
    ¬((r.response.isSome = true ∧ r.execution_error = none) ∧
      (r.response = none ∧ r.execution_error.isSome = true)) ∧
    (r.execution_error.isSome = true → r.passed = false) := by
  simp only [Runner.run, List.mem_map] at hr
  obtain ⟨p, _, rfl⟩ := hr
  unfold runCase
  cases hgp : gen p with
  | ok v =>
      obtain ⟨text, m⟩ := v
      exact ⟨Or.inl (by simp), by simp, by simp⟩
  | error e =>
      exact ⟨Or.inr (by simp), by simp, by simp⟩

/-- Witness for C8 at the single-case run whose provider call succeeds. -/
theorem C8_result_invariant_witness :
    (((runCase sampleGen samplePrompt).response.isSome = true ∧
        (runCase sampleGen samplePrompt).execution_error = none) ∨
      ((runCase sampleGen samplePrompt).response = none ∧
        (runCase sampleGen samplePrompt).execution_error.isSome = true)) ∧
    ¬(((runCase sampleGen samplePrompt).response.isSome = true ∧
        (runCase sampleGen samplePrompt).execution_error = none) ∧
      ((runCase sampleGen samplePrompt).response = none ∧
        (runCase sampleGen samplePrompt).execution_error.isSome = true)) ∧
    ((runCase sampleGen samplePrompt).execution_error.isSome = true →
      (runCase sampleGen samplePrompt).passed = false) :=
  C8_result_invariant sampleGen [samplePrompt]
    (runCase sampleGen samplePrompt) (List.mem_singleton.mpr rfl)

/-- C9: over `N` cases the progress callback is invoked exactly `N` times,
each invocation carrying `total = N` and a completed count between 1 and
`N`; the empty batch invokes it zero times. -/
theorem C9_progress_callback (gen : Prompt → Except String (String × Metrics))
    (cases : List Prompt) :
    (Runner.run gen cases).callbacks.length = cases.length ∧
    (∀ c ∈ (Runner.run gen cases).callbacks,
      c.2.1 = cases.length ∧ 1 ≤ c.1 ∧ c.1 ≤ cases.length) ∧
    (Runner.run gen []).callbacks = [] := by
  refine ⟨by simp [Runner.run], ?_, rfl⟩
  intro c hc
  simp only [Runner.run, List.mem_map] at hc
  obtain ⟨e, he, rfl⟩ := hc
  have hb := mem_enumFrom_bounds (cases.map (runCase gen)) 0 e
    (by simpa [List.enum] using he)
  simp only [List.length_map] at hb
  exact ⟨rfl, by omega, by omega⟩

/-- Witness for C9 at a single-case run: the lone callback invocation
carries `completed = 1` and `total = 1`. -/
theorem C9_progress_callback_witness :
    (1, 1, runCase sampleGen samplePrompt).2.1 = [samplePrompt].length ∧
      1 ≤ (1, 1, runCase sampleGen samplePrompt).1 ∧
      (1, 1, runCase sampleGen samplePrompt).1 ≤ [samplePrompt].length :=
  (C9_progress_callback sampleGen [samplePrompt]).2.1
    (1, 1, runCase sampleGen samplePrompt) (List.mem_singleton.mpr rfl)

/-- C10 fails as stated: a `TestResult` constructed without an explicitly
supplied timestamp takes the source default `datetime.now()`
(`field(default_factory=datetime.now)` in `result.py`), a naive timestamp
whose `tzinfo` is `None` — not UTC. -/
theorem C10_default_timestamp_not_utc :
    defaultTimestampedResult.timestamp.tzinfo ≠ some Timezone.utc := by
  simp [defaultTimestampedResult, datetimeNow]

/-- C10 (amended): every `TestResult` the runner produces carries an aware
UTC creation timestamp; the naive `datetime.now()` default applies only to a
`TestResult` constructed directly without an explicit timestamp. -/
theorem C10_run_timestamps_utc
    (gen : Prompt → Except String (String × Metrics)) (cases : List Prompt)
    (r : TestResult) (hr : r ∈ (Runner.run gen cases).results) :
    r.timestamp.tzinfo = some Timezone.utc := by
  simp only [Runner.run, List.mem_map] at hr
  obtain ⟨p, _, rfl⟩ := hr
  rw [runCase_timestamp]
  rfl

/-- Witness for the amended C10 at the single-case run. -/
theorem C10_run_timestamps_utc_witness :
    (runCase sampleGen samplePrompt).timestamp.tzinfo = some Timezone.utc :=
  C10_run_timestamps_utc sampleGen [samplePrompt]
    (runCase sampleGen samplePrompt) (List.mem_singleton.mpr rfl)

end Promptum
